import Mathlib

/-!
# students-api: storage engine and request handlers

A shallow embedding of `internal/storage/sqlite/sqlite.go` and
`internal/http/handlers/student/student.go`.

* Go `error` values are the inductive `GoError`; a Go function returning
  `(T, error)` returns `Except GoError T`.
* The database behind `*sql.DB` is an explicit state `σ`; every call on the
  handle takes the state and returns the new one.  The handle itself is the
  record `DB σ`, so the storage functions are stated for every database.
* `int64` identities are `Int`; the program never does arithmetic on them.
-/

set_option autoImplicit false

/-! ## Go values and errors -/

/-- Go `error` values that reach this program. -/
inductive GoError where
  /-- the sentinel `io.EOF` -/
  | EOF
  /-- the sentinel `sql.ErrNoRows` -/
  | ErrNoRows
  /-- an error made by `fmt.Errorf` without `%w`: only a message -/
  | errorf (msg : String)
  /-- an error made by `fmt.Errorf(pre + "%w", inner)` -/
  | wrapf (pre : String) (inner : GoError)
  /-- an error of `strconv`: `*NumError` with its function, input and cause -/
  | numError (fn : String) (num : String) (cause : String)
  /-- any other error of a library (driver, decoder) -/
  | library (msg : String)
  deriving DecidableEq, Repr

namespace GoError

/-- The method `Error()`: the message of an error. -/
def Error : GoError → String
  | EOF => "EOF"
  | ErrNoRows => "sql: no rows in result set"
  | errorf msg => msg
  | wrapf pre inner => pre ++ inner.Error
  | numError fn num cause => "strconv." ++ fn ++ ": parsing " ++ num.quote ++ ": " ++ cause
  | library msg => msg

end GoError

namespace errors

/-- The function `errors.Is(err, target)` for a sentinel `target`: `err` is the
target or wraps it. -/
def Is : GoError → GoError → Bool
  | .wrapf pre inner, target => decide (GoError.wrapf pre inner = target) || Is inner target
  | err, target => decide (err = target)

end errors

namespace fmt

/-- The function `fmt.Sprint` at an `int64`: its decimal text. -/
def Sprint (i : Int) : String := toString i

end fmt

/-- Go values held in an `interface{}`: what `encoding/json` decodes into
(`nil`, `bool`, `float64`, `string`, `[]interface{}`, `map[string]interface{}`)
and the integers a Go caller or this program (the id) passes. -/
inductive Value where
  | null
  | bool (b : Bool)
  | float64 (f : Float)
  | string (s : String)
  | int (i : Int)
  | slice (xs : List Value)
  | map (kvs : List (String × Value))

/-- A Go slice `[]α`: the nil slice, or a slice with elements (possibly none). -/
inductive Slice (α : Type) where
  /-- the value of `var s []α` -/
  | null
  /-- a non-nil slice -/
  | elems (xs : List α)
  deriving DecidableEq, Repr

namespace Slice

variable {α : Type}

/-- The builtin `append(s, x)`. -/
def append : Slice α → α → Slice α
  | null, x => elems [x]
  | elems xs, x => elems (xs ++ [x])

/-- The elements of a slice, in order. -/
def toList : Slice α → List α
  | null => []
  | elems xs => xs

/-- The builtin `len(s)`. -/
def len (s : Slice α) : Nat := s.toList.length

end Slice

/-- A Go `map[string]interface{}`, as its key/value pairs; `updates[k]` reads the
first pair with key `k`. -/
abbrev UpdateMap := List (String × Value)

/-- Modelled from the spec: the struct `types.Student` of `internal/types`, the
sole entity, with identity, name, email and age. -/
structure Student where
  Id : Int
  Name : String
  Email : String
  Age : Int
  deriving DecidableEq, Repr

/-! ## The database handle -/

/-- A `sql.Result`. -/
structure Result where
  LastInsertId : Except GoError Int
  RowsAffected : Except GoError Int

/-- The handle `*sql.DB` over a database in state `σ`.  A statement is named by
its text; `Query` gives the rows the iteration `rows.Next()` yields, each a list
of column values, and `Scan` is `rows.Scan` into the four fields of a `Student`.
The deferred `Close` calls release handles and do not act on the database; they
are not represented. -/
structure DB (σ : Type) where
  Prepare : String → σ → Except GoError Unit × σ
  Exec : String → List Value → σ → Except GoError Result × σ
  Query : String → List Value → σ → Except GoError (List (List Value)) × σ
  Scan : List Value → Except GoError Student

/-- The method `(*Stmt).QueryRow(args...).Scan(dest...)` of `database/sql`: the
error of the query, `sql.ErrNoRows` when there is no row, else the scan of the
first row. -/
def DB.QueryRowScan {σ : Type} (db : DB σ) (query : String) (args : List Value) (st : σ) :
    Except GoError Student × σ :=
  match db.Query query args st with
  | (.error err, st) => (.error err, st)
  | (.ok [], st) => (.error .ErrNoRows, st)
  | (.ok (row :: _), st) => (db.Scan row, st)

/-! ## Package `sqlite` -/

namespace sqlite

/-- The struct `Sqlite`. -/
structure Sqlite (σ : Type) where
  Db : DB σ

variable {σ : Type}

/-- The method `CreateStudent`. -/
def CreateStudent (s : Sqlite σ) (name : String) (email : String) (age : Int) (st : σ) :
    Except GoError Int × σ :=
  let query := "INSERT INTO students (name, email, age) VALUES (?, ?, ?)"
  match s.Db.Prepare query st with
  | (.error err, st) => (.error err, st)
  | (.ok _, st) =>
    match s.Db.Exec query [.string name, .string email, .int age] st with
    | (.error err, st) => (.error err, st)
    | (.ok result, st) =>
      match result.LastInsertId with
      | .error err => (.error err, st)
      | .ok lastId => (.ok lastId, st)

/-- The method `GetStudentById`. -/
def GetStudentById (s : Sqlite σ) (id : Int) (st : σ) : Except GoError Student × σ :=
  let query := "SELECT id, name, email, age FROM students WHERE id = ? LIMIT 1"
  match s.Db.Prepare query st with
  | (.error err, st) => (.error err, st)
  | (.ok _, st) =>
    match s.Db.QueryRowScan query [.int id] st with
    | (.error .ErrNoRows, st) =>
      (.error (.errorf ("not student found with id " ++ fmt.Sprint id)), st)
    | (.error err, st) => (.error (.wrapf "query error: " err), st)
    | (.ok student, st) => (.ok student, st)

/-- The loop `for rows.Next()` of `GetStudents`, over the rows still to come and
the slice built so far. -/
def GetStudents.loop (db : DB σ) : List (List Value) → Slice Student →
    Except GoError (Slice Student)
  | [], students => .ok students
  | row :: rest, students =>
    match db.Scan row with
    | .error err => .error err
    | .ok student => GetStudents.loop db rest (students.append student)

/-- The method `GetStudents`. -/
def GetStudents (s : Sqlite σ) (st : σ) : Except GoError (Slice Student) × σ :=
  let query := "SELECT id, name, email, age FROM students"
  match s.Db.Prepare query st with
  | (.error err, st) => (.error err, st)
  | (.ok _, st) =>
    match s.Db.Query query [] st with
    | (.error err, st) => (.error err, st)
    | (.ok rows, st) => (GetStudents.loop s.Db rows .null, st)

/-- The method `DeleteStudentById`. -/
def DeleteStudentById (s : Sqlite σ) (id : Int) (st : σ) : Except GoError Unit × σ :=
  let query := "DELETE FROM students WHERE id = ?"
  match s.Db.Prepare query st with
  | (.error err, st) => (.error err, st)
  | (.ok _, st) =>
    match s.Db.Exec query [.int id] st with
    | (.error err, st) => (.error err, st)
    | (.ok result, st) =>
      match result.RowsAffected with
      | .error err => (.error err, st)
      | .ok rowsAffected =>
        if rowsAffected = 0 then
          (.error (.errorf ("no student found with id " ++ fmt.Sprint id)), st)
        else (.ok (), st)

/-- Lines 140-174 of `UpdateStudentById`: the statement text and the argument
list built from `updates`, or the error returned when `counter` is zero.  The
branch for `"age"` appends its clause and argument and leaves `counter` as it
is, as the source does. -/
def UpdateStudentById.build (id : Int) (updates : UpdateMap) :
    Except GoError (String × List Value) :=
  let query := "UPDATE students SET"
  let args : List Value := []
  let counter : Nat := 0
  let (query, args, counter) :=
    match updates.lookup "name" with
    | some name => (query ++ " name = ?", args ++ [name], counter + 1)
    | none => (query, args, counter)
  let (query, args, counter) :=
    match updates.lookup "email" with
    | some email =>
      ((if counter > 0 then query ++ "," else query) ++ " email = ?", args ++ [email],
        counter + 1)
    | none => (query, args, counter)
  let (query, args) :=
    match updates.lookup "age" with
    | some age => ((if counter > 0 then query ++ "," else query) ++ " age = ?", args ++ [age])
    | none => (query, args)
  if counter = 0 then .error (.errorf "no fields to update")
  else .ok (query ++ " WHERE id = ?", args ++ [.int id])

/-- The method `UpdateStudentById`. -/
def UpdateStudentById (s : Sqlite σ) (id : Int) (updates : UpdateMap) (st : σ) :
    Except GoError Student × σ :=
  match UpdateStudentById.build id updates with
  | .error err => (.error err, st)
  | .ok (query, args) =>
    match s.Db.Prepare query st with
    | (.error err, st) => (.error err, st)
    | (.ok _, st) =>
      match s.Db.Exec query args st with
      | (.error err, st) => (.error err, st)
      | (.ok result, st) =>
        match result.RowsAffected with
        | .error err => (.error err, st)
        | .ok rowsAffected =>
          if rowsAffected = 0 then
            (.error (.errorf ("no student found with id " ++ fmt.Sprint id)), st)
          else GetStudentById s id st

end sqlite

/-! ## Package `strconv` -/

namespace strconv

/-- The loop of `ParseUint(s, 10, 64)` over the bytes still to read and the
value so far: `none` is a syntax error; an overflow ends the loop with `true`
and the value `1<<64 - 1`. -/
def ParseUint.loop : List Char → Nat → Option (Nat × Bool)
  | [], n => some (n, false)
  | c :: cs, n =>
    if '0' ≤ c ∧ c ≤ '9' then
      let d := c.toNat - '0'.toNat
      if n ≥ (2 ^ 64 - 1) / 10 + 1 then some (2 ^ 64 - 1, true)
      else
        let n := n * 10
        let n1 := (n + d) % 2 ^ 64
        if n1 < n ∨ n1 > 2 ^ 64 - 1 then some (2 ^ 64 - 1, true)
        else ParseUint.loop cs n1
    else none

/-- The function `ParseUint(s, 10, 64)`, on the bytes of `s`. -/
def ParseUint (s : List Char) : Option (Nat × Bool) :=
  if s = [] then none else ParseUint.loop s 0

/-- The function `ParseInt(s, 10, 64)`. -/
def ParseInt (s : String) : Except GoError Int :=
  if s = "" then .error (.numError "ParseInt" s "invalid syntax")
  else
    let (neg, digits) :=
      match s.toList with
      | '+' :: cs => (false, cs)
      | '-' :: cs => (true, cs)
      | cs => (false, cs)
    match ParseUint digits with
    | none => .error (.numError "ParseInt" s "invalid syntax")
    | some (un, _) =>
      if ¬ neg ∧ un ≥ 2 ^ 63 then .error (.numError "ParseInt" s "value out of range")
      else if neg ∧ un > 2 ^ 63 then .error (.numError "ParseInt" s "value out of range")
      else .ok (if neg then -(un : Int) else (un : Int))

end strconv

/-! ## Package `storage` -/

namespace storage

/-- The interface `Storage`, over a store in state `σ`. -/
structure Storage (σ : Type) where
  CreateStudent : String → String → Int → σ → Except GoError Int × σ
  GetStudentById : Int → σ → Except GoError Student × σ
  GetStudents : σ → Except GoError (Slice Student) × σ
  DeleteStudentById : Int → σ → Except GoError Unit × σ
  UpdateStudentById : Int → UpdateMap → σ → Except GoError Student × σ

end storage

/-- The value `*Sqlite` as a `storage.Storage`, as `main` passes it to the
handlers. -/
def sqlite.Sqlite.Storage {σ : Type} (s : sqlite.Sqlite σ) : storage.Storage σ where
  CreateStudent := sqlite.CreateStudent s
  GetStudentById := sqlite.GetStudentById s
  GetStudents := sqlite.GetStudents s
  DeleteStudentById := sqlite.DeleteStudentById s
  UpdateStudentById := sqlite.UpdateStudentById s

/-! ## Packages `validator` and `response` -/

namespace validator

/-- One `validator.FieldError`: the field and the tag that failed. -/
structure FieldError where
  Field : String
  Tag : String
  deriving DecidableEq, Repr

/-- The type `validator.ValidationErrors`. -/
abbrev ValidationErrors := List FieldError

/-- Modelled from the spec: the tag `required` of the fields name, email and age
of `types.Student` (the struct tags are in `internal/types`): a zero value fails.
The checks of the email and of the range of the age are left to the parameter
`Struct` of the handler `New`. -/
def required (student : Student) : Option ValidationErrors :=
  match (if student.Name = "" then [FieldError.mk "Name" "required"] else []) ++
      (if student.Email = "" then [FieldError.mk "Email" "required"] else []) ++
      (if student.Age = 0 then [FieldError.mk "Age" "required"] else []) with
  | [] => none
  | errs => some errs

end validator

namespace response

/-- The value of the `"error"` member of an error body: a message, or a list of
fields. -/
inductive ErrorDetail where
  | message (msg : String)
  | fields (names : List String)
  deriving DecidableEq, Repr

/-- Modelled from the spec: the struct `response.Response` of
`internal/utils/response`, the error body with its `"status"` and `"error"`
members. -/
structure Response where
  Status : String
  Error : ErrorDetail
  deriving DecidableEq, Repr

/-- Modelled from the spec: `response.GeneralError` of `internal/utils/response`,
the error body with status `"Error"` and the message of the error. -/
def GeneralError (err : GoError) : Response := ⟨"Error", .message err.Error⟩

/-- Modelled from the spec: `response.ValidationError` of
`internal/utils/response`, the error body with status `"Validation Error"` and
the list of the fields that failed. -/
def ValidationError (errs : validator.ValidationErrors) : Response :=
  ⟨"Validation Error", .fields (errs.map (fun e => e.Field))⟩

/-- The values the handlers pass to `WriteJson` as `data interface{}`. -/
inductive Payload where
  /-- a `response.Response` -/
  | response (r : Response)
  /-- a Go `error` value, passed as it is -/
  | error (err : GoError)
  /-- a `map[string]int64` -/
  | int64Map (kvs : List (String × Int))
  /-- a `map[string]string` -/
  | stringMap (kvs : List (String × String))
  /-- a `types.Student` -/
  | student (s : Student)
  /-- a `[]types.Student` -/
  | students (xs : Slice Student)
  deriving DecidableEq, Repr

/-- What one call of `WriteJson` writes: the status and the body. -/
structure Written where
  status : Nat
  data : Payload
  deriving DecidableEq, Repr

/-- Modelled from the spec: `response.WriteJson` of `internal/utils/response`,
which writes the status and the JSON of `data`. -/
def WriteJson (status : Nat) (data : Payload) : Written := ⟨status, data⟩

/-- A payload is of the error shape when it is a `Response` with the status of
`GeneralError` or of `ValidationError`; every value the two build is, and no
other kind of payload. -/
def ErrorShape : Payload → Bool
  | .response r => r.Status == "Error" || r.Status == "Validation Error"
  | _ => false

end response

namespace http

/-- The constant `http.StatusOK`. -/
def StatusOK : Nat := 200

/-- The constant `http.StatusBadRequest`. -/
def StatusBadRequest : Nat := 400

/-- The constant `http.StatusInternalServerError`. -/
def StatusInternalServerError : Nat := 500

/-- A `*http.Request` as the handlers read it: the path value `id`, and the
outcome of `json.NewDecoder(r.Body).Decode(&v)` on its body for the type `β`
of `v` (`io.EOF` for an empty body). -/
structure Request (β : Type) where
  id : String
  Decode : Except GoError β

end http

/-! ## Package `student`: the handlers -/

namespace student

open response http

variable {σ : Type}

/-- The handler `New`.  `Struct` is `validator.New().Struct` at a
`types.Student`: the validation errors of the struct tags, or `none`. -/
def New (Struct : Student → Option validator.ValidationErrors) (storage : storage.Storage σ)
    (r : Request Student) (st : σ) : Written × σ :=
  match r.Decode with
  | .error err =>
    if errors.Is err .EOF then
      (WriteJson StatusBadRequest (.response (GeneralError (.errorf "empty body"))), st)
    else (WriteJson StatusBadRequest (.response (GeneralError err)), st)
  | .ok student =>
    match Struct student with
    | some validateErrs =>
      (WriteJson StatusBadRequest (.response (ValidationError validateErrs)), st)
    | none =>
      match storage.CreateStudent student.Name student.Email student.Age st with
      | (.error err, st) => (WriteJson StatusInternalServerError (.error err), st)
      | (.ok lastId, st) =>
        (WriteJson StatusOK (.int64Map [("created student id", lastId)]), st)

/-- The handler `GetById`. -/
def GetById {β : Type} (storage : storage.Storage σ) (r : Request β) (st : σ) : Written × σ :=
  let id := r.id
  match strconv.ParseInt id with
  | .error err => (WriteJson StatusBadRequest (.response (GeneralError err)), st)
  | .ok intId =>
    match storage.GetStudentById intId st with
    | (.error err, st) =>
      (WriteJson StatusInternalServerError (.response (GeneralError err)), st)
    | (.ok student, st) => (WriteJson StatusOK (.student student), st)

/-- The handler `GetList`. -/
def GetList (storage : storage.Storage σ) (st : σ) : Written × σ :=
  match storage.GetStudents st with
  | (.error err, st) => (WriteJson StatusInternalServerError (.response (GeneralError err)), st)
  | (.ok students, st) => (WriteJson StatusOK (.students students), st)

/-- The handler `DeleteById`. -/
def DeleteById {β : Type} (storage : storage.Storage σ) (r : Request β) (st : σ) :
    Written × σ :=
  let id := r.id
  match strconv.ParseInt id with
  | .error err => (WriteJson StatusBadRequest (.response (GeneralError err)), st)
  | .ok intId =>
    match storage.DeleteStudentById intId st with
    | (.error err, st) =>
      (WriteJson StatusInternalServerError (.response (GeneralError err)), st)
    | (.ok _, st) => (WriteJson StatusOK (.stringMap [("deleted student id", id)]), st)

/-- The handler `UpdateById`. -/
def UpdateById (storage : storage.Storage σ) (r : Request UpdateMap) (st : σ) : Written × σ :=
  let id := r.id
  match strconv.ParseInt id with
  | .error err => (WriteJson StatusBadRequest (.response (GeneralError err)), st)
  | .ok intId =>
    match r.Decode with
    | .error err =>
      if errors.Is err .EOF then
        (WriteJson StatusBadRequest (.response (GeneralError (.errorf "empty body"))), st)
      else (WriteJson StatusBadRequest (.response (GeneralError err)), st)
    | .ok updates =>
      match storage.UpdateStudentById intId updates st with
      | (.error err, st) =>
        (WriteJson StatusInternalServerError (.response (GeneralError err)), st)
      | (.ok updatedStudent, st) => (WriteJson StatusOK (.student updatedStudent), st)

end student

/-! ## A database in memory

One table `students` held as a list of rows, each `[id, name, email, age]`, with
the counter of `AUTOINCREMENT`.  It answers the statements this program prepares
and refuses every other text.  Bound values are stored as they are given; `Scan`
reads back integers and strings and refuses the rest. -/

namespace memdb

/-- The table `students` and the largest id given so far. -/
structure Table where
  rows : List (List Value)
  seq : Int

/-- The id of a row. -/
def rowId : List Value → Option Int
  | .int i :: _ => some i
  | _ => none

/-- Whether a row has the id bound as the last argument. -/
def hasId (args : List Value) (row : List Value) : Bool :=
  match args.getLast?, rowId row with
  | some (.int id), some i => decide (i = id)
  | _, _ => false

/-- The column subsets an `UPDATE` of this program can set, in column order. -/
def updateColumns : List (List String) :=
  [["name"], ["email"], ["age"], ["name", "email"], ["name", "age"], ["email", "age"],
   ["name", "email", "age"]]

/-- The text of the `UPDATE` that sets `cols`. -/
def updateText (cols : List String) : String :=
  "UPDATE students SET" ++ ",".intercalate (cols.map (fun c => " " ++ c ++ " = ?")) ++
    " WHERE id = ?"

/-- The columns set by an `UPDATE` text, if it is one. -/
def updateOf (query : String) : Option (List String) :=
  updateColumns.find? (fun cols => updateText cols == query)

/-- A row with column `col` set to `v`. -/
def setColumn (col : String) (v : Value) : List Value → List Value
  | [i, n, e, a] =>
    if col = "name" then [i, v, e, a]
    else if col = "email" then [i, n, v, a]
    else if col = "age" then [i, n, e, v]
    else [i, n, e, a]
  | row => row

/-- A row with the columns `cols` set to the values bound for them. -/
def setColumns : List String → List Value → List Value → List Value
  | col :: cols, v :: vs, row => setColumns cols vs (setColumn col v row)
  | _, _, row => row

/-- The text of the insert. -/
def insertText : String := "INSERT INTO students (name, email, age) VALUES (?, ?, ?)"

/-- The text of the select of one row. -/
def selectOneText : String := "SELECT id, name, email, age FROM students WHERE id = ? LIMIT 1"

/-- The text of the select of all rows. -/
def selectAllText : String := "SELECT id, name, email, age FROM students"

/-- The text of the delete. -/
def deleteText : String := "DELETE FROM students WHERE id = ?"

/-- The call `Prepare`: the statements of this program compile, no other text does. -/
def Prepare (query : String) (t : Table) : Except GoError Unit × Table :=
  if query = insertText ∨ query = selectOneText ∨ query = selectAllText ∨ query = deleteText
      ∨ (updateOf query).isSome then (.ok (), t)
  else (.error (.library "syntax error"), t)

/-- The call `Exec` of the insert, the delete and the updates. -/
def Exec (query : String) (args : List Value) (t : Table) : Except GoError Result × Table :=
  if query = insertText then
    match args with
    | [n, e, a] =>
      (.ok ⟨.ok (t.seq + 1), .ok 1⟩, ⟨t.rows ++ [[.int (t.seq + 1), n, e, a]], t.seq + 1⟩)
    | _ => (.error (.library "wrong number of arguments"), t)
  else if query = deleteText then
    (.ok ⟨.ok t.seq, .ok ((t.rows.filter (hasId args)).length : Int)⟩,
      ⟨t.rows.filter (fun row => !hasId args row), t.seq⟩)
  else
    match updateOf query with
    | some cols =>
      (.ok ⟨.ok t.seq, .ok ((t.rows.filter (hasId args)).length : Int)⟩,
        ⟨t.rows.map (fun row => if hasId args row then setColumns cols args row else row),
          t.seq⟩)
    | none => (.error (.library "not an executable statement"), t)

/-- The call `Query` of the two selects. -/
def Query (query : String) (args : List Value) (t : Table) :
    Except GoError (List (List Value)) × Table :=
  if query = selectOneText then (.ok ((t.rows.filter (hasId args)).take 1), t)
  else if query = selectAllText then (.ok t.rows, t)
  else (.error (.library "not a query"), t)

/-- The call `Scan` of a row into a `Student`. -/
def Scan : List Value → Except GoError Student
  | [.int id, .string name, .string email, .int age] => .ok ⟨id, name, email, age⟩
  | _ => .error (.library "sql: Scan error: unsupported conversion")

/-- The handle on the database in memory. -/
def db : DB Table := ⟨Prepare, Exec, Query, Scan⟩

/-- The storage of `main` over the database in memory. -/
def store : storage.Storage Table := (sqlite.Sqlite.mk db).Storage

/-- The table after `create("Ann", "ann@x.com", 20)` on an empty database. -/
def ann : Table := ⟨[[.int 1, .string "Ann", .string "ann@x.com", .int 20]], 1⟩

/-- The empty database. -/
def empty : Table := ⟨[], 0⟩

/-- No row of the table has the id. -/
def absent (id : Int) (t : Table) : Prop := ∀ row ∈ t.rows, rowId row ≠ some id

/-- A handle whose database cannot be reached: every call fails. -/
def offline : DB Table where
  Prepare _ t := (.error (.library "unable to open database file"), t)
  Exec _ _ t := (.error (.library "unable to open database file"), t)
  Query _ _ t := (.error (.library "unable to open database file"), t)
  Scan := Scan

end memdb

/-! ## Counting calls -/

/-- A handle that passes every call to `db` and counts the calls made on it. -/
def DB.counted {σ : Type} (db : DB σ) : DB (σ × Nat) where
  Prepare query st := ((db.Prepare query st.1).1, ((db.Prepare query st.1).2, st.2 + 1))
  Exec query args st := ((db.Exec query args st.1).1, ((db.Exec query args st.1).2, st.2 + 1))
  Query query args st := ((db.Query query args st.1).1, ((db.Query query args st.1).2, st.2 + 1))
  Scan := db.Scan

/-- A storage that passes every call to `s` and counts the calls made on it. -/
def storage.Storage.counted {σ : Type} (s : storage.Storage σ) : storage.Storage (σ × Nat) where
  CreateStudent name email age st :=
    ((s.CreateStudent name email age st.1).1, ((s.CreateStudent name email age st.1).2, st.2 + 1))
  GetStudentById id st := ((s.GetStudentById id st.1).1, ((s.GetStudentById id st.1).2, st.2 + 1))
  GetStudents st := ((s.GetStudents st.1).1, ((s.GetStudents st.1).2, st.2 + 1))
  DeleteStudentById id st :=
    ((s.DeleteStudentById id st.1).1, ((s.DeleteStudentById id st.1).2, st.2 + 1))
  UpdateStudentById id updates st :=
    ((s.UpdateStudentById id updates st.1).1, ((s.UpdateStudentById id updates st.1).2, st.2 + 1))

/-! ## The update statement as the specification words it -/

namespace spec

/-- The recognised fields, in the canonical order. -/
def fields : List String := ["name", "email", "age"]

/-- The recognised fields present in a mapping, in the canonical order. -/
def present (updates : UpdateMap) : List String :=
  fields.filter (fun k => (updates.lookup k).isSome)

/-- The values of the recognised fields present in a mapping, in the canonical
order. -/
def boundValues (updates : UpdateMap) : List Value :=
  fields.filterMap (fun k => updates.lookup k)

/-- The statement that sets the fields `cols`: one clause per field, separated
by commas, between the fixed head and tail. -/
def statement (cols : List String) : String :=
  "UPDATE students SET" ++ ",".intercalate (cols.map (fun c => " " ++ c ++ " = ?")) ++
    " WHERE id = ?"

/-- The number of `?` placeholders of a statement text. -/
def placeholders (query : String) : Nat := query.toList.count '?'

end spec

/-! ## The statement builder -/

open sqlite student response http

/-- The builder in closed form: with `"name"` or `"email"` present it gives the
statement of the specification for the present fields and their values followed by
the id; otherwise, whether or not `"age"` is present, the error. -/
theorem build_closed_form (id : Int) (updates : UpdateMap) :
    UpdateStudentById.build id updates =
      if (updates.lookup "name").isSome ∨ (updates.lookup "email").isSome then
        .ok (spec.statement (spec.present updates), spec.boundValues updates ++ [.int id])
      else .error (.errorf "no fields to update") := by
  cases hn : updates.lookup "name" <;> cases he : updates.lookup "email" <;>
    cases ha : updates.lookup "age" <;>
    simp [UpdateStudentById.build, spec.present, spec.boundValues, spec.fields, hn, he, ha] <;> rfl

/-- The present fields, by the presence of each of the three keys. -/
theorem present_eq_filter (updates : UpdateMap) :
    spec.present updates = spec.fields.filter (fun k =>
      (k = "name" ∧ (updates.lookup "name").isSome) ∨
        (k = "email" ∧ (updates.lookup "email").isSome) ∨
        (k = "age" ∧ (updates.lookup "age").isSome)) := by
  simp [spec.present, spec.fields, List.filter]

/-- There is one bound value for each present field. -/
theorem boundValues_length (updates : UpdateMap) :
    (spec.boundValues updates).length = (spec.present updates).length := by
  cases hn : updates.lookup "name" <;> cases he : updates.lookup "email" <;>
    cases ha : updates.lookup "age" <;>
    simp [spec.present, spec.boundValues, spec.fields, List.filter, hn, he, ha]

/-- The statement for a subset of the fields has one placeholder for each field
and one for the id. -/
theorem statement_placeholders (n e a : Bool) :
    spec.placeholders (spec.statement (spec.fields.filter
      (fun k => (k = "name" ∧ n) ∨ (k = "email" ∧ e) ∨ (k = "age" ∧ a)))) =
      (spec.fields.filter
        (fun k => (k = "name" ∧ n) ∨ (k = "email" ∧ e) ∨ (k = "age" ∧ a))).length + 1 := by
  cases n <;> cases e <;> cases a <;> decide

/-- Without `"name"` and `"email"` in the mapping, `UpdateStudentById` returns the
error "no fields to update" and the state it was given. -/
theorem update_no_fields {σ : Type} (s : Sqlite σ) (id : Int) (updates : UpdateMap) (st : σ)
    (hname : updates.lookup "name" = none) (hemail : updates.lookup "email" = none) :
    UpdateStudentById s id updates st = (.error (.errorf "no fields to update"), st) := by
  simp [UpdateStudentById, build_closed_form, hname, hemail]

/-- C1: with only the key `"age"` present the builder returns the error
"no fields to update" and builds no statement, for every id and value, where the
specification has `UPDATE students SET age = ? WHERE id = ?`; with only `"name"`
or only `"email"` it builds the statement for that field. -/
theorem build_age_only_no_fields (id : Int) (age : Value) :
    spec.present [("age", age)] = ["age"] ∧
      UpdateStudentById.build id [("age", age)] = .error (.errorf "no fields to update") ∧
      UpdateStudentById.build id [("name", age)] =
        .ok ("UPDATE students SET name = ? WHERE id = ?", [age, .int id]) ∧
      UpdateStudentById.build id [("email", age)] =
        .ok ("UPDATE students SET email = ? WHERE id = ?", [age, .int id]) := by
  refine ⟨rfl, rfl, rfl, rfl⟩

/-- C2: on the store that holds Ann under id 1, `UpdateStudentById(1, {"age": v})`
returns the error "no fields to update" for every integer `v` and the row keeps
age 20, where the specification has success and age `v`. -/
theorem update_age_of_existing_row_fails (v : Int) :
    memdb.store.GetStudentById 1 memdb.ann = (.ok ⟨1, "Ann", "ann@x.com", 20⟩, memdb.ann) ∧
      memdb.store.UpdateStudentById 1 [("age", .int v)] memdb.ann =
        (.error (.errorf "no fields to update"), memdb.ann) ∧
      memdb.store.GetStudentById 1
          (memdb.store.UpdateStudentById 1 [("age", .int v)] memdb.ann).2 =
        (.ok ⟨1, "Ann", "ann@x.com", 20⟩, memdb.ann) := by
  refine ⟨rfl, rfl, rfl⟩

/-- C3: when none of the keys `"name"`, `"email"`, `"age"` is in the mapping,
`UpdateStudentById` returns the error "no fields to update" and the state of the
database is the one it was given, for every database handle; a handle that counts
the calls made on it counts none: no statement is prepared or executed. -/
theorem update_without_recognised_key {σ : Type} (s : Sqlite σ) (id : Int) (updates : UpdateMap)
    (st : σ) (hname : updates.lookup "name" = none) (hemail : updates.lookup "email" = none)
    (_hage : updates.lookup "age" = none) :
    UpdateStudentById s id updates st = (.error (.errorf "no fields to update"), st) ∧
      ∀ n, UpdateStudentById ⟨s.Db.counted⟩ id updates (st, n) =
        (.error (.errorf "no fields to update"), (st, n)) :=
  ⟨update_no_fields s id updates st hname hemail,
    fun n => update_no_fields ⟨s.Db.counted⟩ id updates (st, n) hname hemail⟩

/-- The mapping `{"grade": 3}` has none of the three keys; on the store that holds
Ann the update fails, the table is as before and no call was counted. -/
theorem update_without_recognised_key_witness :
    (List.lookup "name" [("grade", Value.int 3)] = none ∧
        List.lookup "email" [("grade", Value.int 3)] = none ∧
        List.lookup "age" [("grade", Value.int 3)] = none) ∧
      sqlite.UpdateStudentById ⟨memdb.db⟩ 1 [("grade", Value.int 3)] memdb.ann =
        (.error (.errorf "no fields to update"), memdb.ann) ∧
      sqlite.UpdateStudentById ⟨memdb.db.counted⟩ 1 [("grade", Value.int 3)] (memdb.ann, 0) =
        (.error (.errorf "no fields to update"), (memdb.ann, 0)) :=
  ⟨⟨rfl, rfl, rfl⟩,
    (update_without_recognised_key ⟨memdb.db⟩ 1 [("grade", Value.int 3)] memdb.ann rfl rfl rfl).1,
    (update_without_recognised_key ⟨memdb.db⟩ 1 [("grade", Value.int 3)] memdb.ann rfl rfl rfl).2
      0⟩

/-- C4: the statement text `UpdateStudentById` builds depends only on which of the
recognised keys are present, not on the values or the id; when a statement is
built, the bound arguments are the values of the present recognised fields in the
order name, email, age, then the id, and there are as many of them as the text has
`?` placeholders. -/
theorem statement_text_independent_of_values (id id' : Int) (updates updates' : UpdateMap)
    (hname : (updates.lookup "name").isSome = (updates'.lookup "name").isSome)
    (hemail : (updates.lookup "email").isSome = (updates'.lookup "email").isSome)
    (hage : (updates.lookup "age").isSome = (updates'.lookup "age").isSome) :
    (UpdateStudentById.build id updates).map Prod.fst =
        (UpdateStudentById.build id' updates').map Prod.fst ∧
      ∀ query args, UpdateStudentById.build id updates = .ok (query, args) →
        args = spec.boundValues updates ++ [.int id] ∧
          args.length = spec.placeholders query := by
  have hp : spec.present updates = spec.present updates' := by
    rw [present_eq_filter, present_eq_filter, hname, hemail, hage]
  refine ⟨?_, ?_⟩
  · rw [build_closed_form, build_closed_form, hname, hemail, hp]
    split <;> rfl
  · intro query args h
    rw [build_closed_form] at h
    split at h
    · injection h with h
      injection h with hq ha
      subst hq ha
      refine ⟨rfl, ?_⟩
      rw [List.length_append, boundValues_length, present_eq_filter, statement_placeholders]
      rfl
    · exact absurd h (by simp)

/-- Two mappings with `"name"` and `"age"` and different values, one of them with
SQL in its name: the text is the same, and of the first the three arguments are
the name, the age and the id, as many as the text has placeholders. -/
theorem statement_text_independent_of_values_witness :
    (UpdateStudentById.build 1 [("name", .string "Ann"), ("age", .int 20)]).map Prod.fst =
        (UpdateStudentById.build 2
          [("age", .null), ("name", .string "x; DROP TABLE students")]).map Prod.fst ∧
      [Value.string "Ann", .int 20, .int 1] =
        spec.boundValues [("name", .string "Ann"), ("age", .int 20)] ++ [.int 1] ∧
      [Value.string "Ann", .int 20, .int 1].length =
        spec.placeholders "UPDATE students SET name = ?, age = ? WHERE id = ?" :=
  ⟨(statement_text_independent_of_values 1 2 [("name", .string "Ann"), ("age", .int 20)]
      [("age", .null), ("name", .string "x; DROP TABLE students")] rfl rfl rfl).1,
    (statement_text_independent_of_values 1 2 [("name", .string "Ann"), ("age", .int 20)]
      [("age", .null), ("name", .string "x; DROP TABLE students")] rfl rfl rfl).2
      "UPDATE students SET name = ?, age = ? WHERE id = ?" [.string "Ann", .int 20, .int 1] rfl⟩

/-- C5: on the store that holds only id 1, `UpdateStudentById(7, {"age": 30})`
fails with "no fields to update", which is not the not-found error that
`UpdateStudentById(7, {"name": "Bob"})` returns on the same store, where the
specification has the not-found error for every mapping with a recognised field. -/
theorem update_age_of_missing_row_not_notfound :
    (memdb.store.UpdateStudentById 7 [("name", .string "Bob")] memdb.ann).1 =
        .error (.errorf "no student found with id 7") ∧
      (memdb.store.UpdateStudentById 7 [("age", .int 30)] memdb.ann).1 =
        .error (.errorf "no fields to update") ∧
      GoError.errorf "no fields to update" ≠ GoError.errorf "no student found with id 7" := by
  refine ⟨rfl, rfl, by decide⟩

/-! ## Identities without a row -/

/-- A row of a table without the id does not match an argument list that ends in
the id. -/
theorem hasId_of_absent (t : memdb.Table) (id : Int) (h : memdb.absent id t) (vals : List Value) :
    ∀ row ∈ t.rows, memdb.hasId (vals ++ [.int id]) row = false := by
  intro row hrow
  have := h row hrow
  have hl : (vals ++ [Value.int id]).getLast? = some (.int id) := by simp
  unfold memdb.hasId
  rw [hl]
  cases hr : memdb.rowId row with
  | none => rfl
  | some i =>
    simp only [decide_eq_false_iff_not]
    intro hi
    exact this (by rw [hr, hi])

/-- On a table without the id, the rows matched are none, the rows kept are all
and an update changes nothing. -/
theorem filter_hasId_of_absent (t : memdb.Table) (id : Int) (h : memdb.absent id t)
    (vals : List Value) :
    t.rows.filter (memdb.hasId (vals ++ [.int id])) = [] ∧
      t.rows.filter (fun row => !memdb.hasId (vals ++ [.int id]) row) = t.rows ∧
      ∀ cols, t.rows.map (fun row => if memdb.hasId (vals ++ [.int id]) row then
        memdb.setColumns cols (vals ++ [.int id]) row else row) = t.rows := by
  have hf := hasId_of_absent t id h vals
  refine ⟨?_, ?_, fun cols => ?_⟩
  · rw [List.filter_eq_nil_iff]
    intro row hrow
    simp [hf row hrow]
  · rw [List.filter_eq_self]
    intro row hrow
    simp [hf row hrow]
  · conv_rhs => rw [← List.map_id t.rows]
    apply List.map_congr_left
    intro row hrow
    simp [hf row hrow]

/-- The database in memory knows the statement built for a subset of the fields
with `"name"` or `"email"`, and it is neither the insert nor the delete. -/
theorem prepare_update_statement (n e a : Bool) (h : n = true ∨ e = true) :
    memdb.updateOf (spec.statement (spec.fields.filter
      (fun k => (k = "name" ∧ n) ∨ (k = "email" ∧ e) ∨ (k = "age" ∧ a)))) =
      some (spec.fields.filter
        (fun k => (k = "name" ∧ n) ∨ (k = "email" ∧ e) ∨ (k = "age" ∧ a))) ∧
    spec.statement (spec.fields.filter
      (fun k => (k = "name" ∧ n) ∨ (k = "email" ∧ e) ∨ (k = "age" ∧ a))) ≠ memdb.insertText ∧
    spec.statement (spec.fields.filter
      (fun k => (k = "name" ∧ n) ∨ (k = "email" ∧ e) ∨ (k = "age" ∧ a))) ≠ memdb.deleteText := by
  cases n <;> cases e <;> cases a <;> first | (exact absurd h (by decide)) | decide

/-- When the select of one row yields no row, `GetStudentById` fails with its
not-found error. -/
theorem getStudentById_no_row {σ : Type} (s : Sqlite σ) (id : Int) (st st1 st2 : σ)
    (hprepare : s.Db.Prepare "SELECT id, name, email, age FROM students WHERE id = ? LIMIT 1" st
      = (.ok (), st1))
    (hquery : s.Db.Query "SELECT id, name, email, age FROM students WHERE id = ? LIMIT 1"
      [.int id] st1 = (.ok [], st2)) :
    GetStudentById s id st =
      (.error (.errorf ("not student found with id " ++ fmt.Sprint id)), st2) := by
  simp [GetStudentById, DB.QueryRowScan, hprepare, hquery]

/-- When the delete affects no row, `DeleteStudentById` fails with its not-found
error. -/
theorem deleteStudentById_no_row {σ : Type} (s : Sqlite σ) (id : Int) (st st1 st2 : σ)
    (result : Result)
    (hprepare : s.Db.Prepare "DELETE FROM students WHERE id = ?" st = (.ok (), st1))
    (hexec : s.Db.Exec "DELETE FROM students WHERE id = ?" [.int id] st1 = (.ok result, st2))
    (hrows : result.RowsAffected = .ok 0) :
    DeleteStudentById s id st =
      (.error (.errorf ("no student found with id " ++ fmt.Sprint id)), st2) := by
  simp [DeleteStudentById, hprepare, hexec, hrows]

/-- When the update that was built affects no row, `UpdateStudentById` fails with
its not-found error. -/
theorem updateStudentById_no_row {σ : Type} (s : Sqlite σ) (id : Int) (updates : UpdateMap)
    (st st1 st2 : σ) (query : String) (args : List Value) (result : Result)
    (hbuild : UpdateStudentById.build id updates = .ok (query, args))
    (hprepare : s.Db.Prepare query st = (.ok (), st1))
    (hexec : s.Db.Exec query args st1 = (.ok result, st2))
    (hrows : result.RowsAffected = .ok 0) :
    UpdateStudentById s id updates st =
      (.error (.errorf ("no student found with id " ++ fmt.Sprint id)), st2) := by
  simp [UpdateStudentById, hbuild, hprepare, hexec, hrows]

/-- On the database in memory, for an id that has no row: `GetStudentById` and
`DeleteStudentById` fail with their not-found errors, and so does
`UpdateStudentById` for every mapping with `"name"` or `"email"`; the table is the
same afterwards. -/
theorem missing_id_not_found (t : memdb.Table) (id : Int) (h : memdb.absent id t) :
    memdb.store.GetStudentById id t =
        (.error (.errorf ("not student found with id " ++ fmt.Sprint id)), t) ∧
      memdb.store.DeleteStudentById id t =
        (.error (.errorf ("no student found with id " ++ fmt.Sprint id)), t) ∧
      ∀ updates : UpdateMap,
        (updates.lookup "name").isSome ∨ (updates.lookup "email").isSome →
        memdb.store.UpdateStudentById id updates t =
          (.error (.errorf ("no student found with id " ++ fmt.Sprint id)), t) := by
  refine ⟨?_, ?_, ?_⟩
  · obtain ⟨h1, -, -⟩ := filter_hasId_of_absent t id h []
    refine getStudentById_no_row ⟨memdb.db⟩ id t t t rfl ?_
    show memdb.Query memdb.selectOneText ([] ++ [.int id]) t = _
    simp only [memdb.Query, if_true, h1]
    rfl
  · obtain ⟨h1, h2, -⟩ := filter_hasId_of_absent t id h []
    refine deleteStudentById_no_row ⟨memdb.db⟩ id t t t ⟨.ok t.seq, .ok 0⟩ rfl ?_ rfl
    show memdb.Exec memdb.deleteText ([] ++ [.int id]) t = _
    have hne : memdb.deleteText ≠ memdb.insertText := by decide
    simp only [memdb.Exec, if_neg hne, if_true, h1, h2]
    rfl
  · intro updates hpres
    obtain ⟨h1, -, h3⟩ := filter_hasId_of_absent t id h (spec.boundValues updates)
    have hpres2 :
        (updates.lookup "name").isSome = true ∨ (updates.lookup "email").isSome = true := hpres
    obtain ⟨hu, hni, hnd⟩ := prepare_update_statement _ _ (updates.lookup "age").isSome hpres2
    rw [← present_eq_filter] at hu hni hnd
    refine updateStudentById_no_row ⟨memdb.db⟩ id updates t t t
      (spec.statement (spec.present updates)) (spec.boundValues updates ++ [.int id])
      ⟨.ok t.seq, .ok 0⟩ ?_ ?_ ?_ rfl
    · rw [build_closed_form, if_pos hpres]
    · show memdb.Prepare _ t = _
      simp [memdb.Prepare, hu]
    · show memdb.Exec (spec.statement (spec.present updates))
        (spec.boundValues updates ++ [.int id]) t = _
      simp only [memdb.Exec, if_neg hni, if_neg hnd, hu, h1, h3]
      rfl

/-! ## The handlers -/

/-- C6: a `PUT /api/students/1` whose body is the object `{"grade": "A"}` is
answered with status 500, not 400. -/
theorem updateById_no_field_is_500 :
    (UpdateById memdb.store ⟨"1", .ok [("grade", .string "A")]⟩ memdb.ann).1.status = 500 ∧
      (UpdateById memdb.store ⟨"1", .ok [("grade", .string "A")]⟩ memdb.ann).1.status ≠ 400 := by
  refine ⟨rfl, by decide⟩

/-- C6, amended: for every database, a `PUT` whose path id parses and whose body
decodes to a mapping with none of the keys `"name"`, `"email"`, `"age"` is
answered with status 500 and the general error body "no fields to update"; the
database is left as it was. -/
theorem updateById_no_field_general_error {σ : Type} (s : Sqlite σ) (r : Request UpdateMap)
    (st : σ) (intId : Int) (updates : UpdateMap) (hid : strconv.ParseInt r.id = .ok intId)
    (hbody : r.Decode = .ok updates) (hname : updates.lookup "name" = none)
    (hemail : updates.lookup "email" = none) (_hage : updates.lookup "age" = none) :
    UpdateById s.Storage r st =
      (⟨StatusInternalServerError, .response (GeneralError (.errorf "no fields to update"))⟩,
        st) := by
  simp [UpdateById, hid, hbody, sqlite.Sqlite.Storage, update_no_fields s intId updates st hname
    hemail, WriteJson]

/-- The path id `"1"` parses to 1 and the empty object has none of the keys: the
answer is 500 with the body of the general error. -/
theorem updateById_no_field_general_error_witness :
    strconv.ParseInt "1" = .ok 1 ∧ List.lookup "name" ([] : UpdateMap) = none ∧
      UpdateById (sqlite.Sqlite.mk memdb.db).Storage ⟨"1", .ok []⟩ memdb.ann =
        (⟨500, .response ⟨"Error", .message "no fields to update"⟩⟩, memdb.ann) :=
  ⟨rfl, rfl, updateById_no_field_general_error ⟨memdb.db⟩ ⟨"1", .ok []⟩ memdb.ann 1 [] rfl rfl
    rfl rfl rfl⟩

/-- C7: the statuses of `UpdateById`.  A path id that `ParseInt` refuses gives 400,
and so does a body whose decoding fails (empty or malformed); in both cases the
answer is the same for every storage, the state is the one given and a storage that
counts its calls counts none.  Otherwise an error of `UpdateStudentById` gives 500
and a returned Student gives 200 with that Student as the body. -/
theorem updateById_status_mapping {σ : Type} (sto : storage.Storage σ)
    (r : Request UpdateMap) (st : σ) :
    (∀ err, strconv.ParseInt r.id = .error err →
        UpdateById sto r st = (⟨400, .response (GeneralError err)⟩, st) ∧
          ∀ n, (UpdateById sto.counted r (st, n)).2 = (st, n)) ∧
      (∀ intId err, strconv.ParseInt r.id = .ok intId → r.Decode = .error err →
        (UpdateById sto r st).1.status = 400 ∧ (UpdateById sto r st).2 = st ∧
          ∀ n, (UpdateById sto.counted r (st, n)).2 = (st, n)) ∧
      (∀ intId updates err st', strconv.ParseInt r.id = .ok intId → r.Decode = .ok updates →
        sto.UpdateStudentById intId updates st = (.error err, st') →
        UpdateById sto r st = (⟨500, .response (GeneralError err)⟩, st')) ∧
      (∀ intId updates updatedStudent st', strconv.ParseInt r.id = .ok intId →
        r.Decode = .ok updates →
        sto.UpdateStudentById intId updates st = (.ok updatedStudent, st') →
        UpdateById sto r st = (⟨200, .student updatedStudent⟩, st')) := by
  refine ⟨?_, ?_, ?_, ?_⟩
  · intro err h
    simp [UpdateById, h, WriteJson, StatusBadRequest]
  · intro intId err hid hbody
    simp only [UpdateById, hid, hbody]
    refine ⟨?_, ?_, fun n => ?_⟩ <;> split <;> rfl
  · intro intId updates err st' hid hbody hup
    simp [UpdateById, hid, hbody, hup, WriteJson, StatusInternalServerError]
  · intro intId updates updatedStudent st' hid hbody hup
    simp [UpdateById, hid, hbody, hup, WriteJson, StatusOK]

/-- The four outcomes on the store that holds Ann: the path id `abc`, an empty
body, the id 7 that has no row, and a new name for id 1. -/
theorem updateById_status_mapping_witness :
    (UpdateById memdb.store ⟨"abc", .ok [("name", .string "Bob")]⟩ memdb.ann).1.status = 400 ∧
      (UpdateById memdb.store ⟨"1", .error .EOF⟩ memdb.ann).1.status = 400 ∧
      (UpdateById memdb.store ⟨"7", .ok [("name", .string "Bob")]⟩ memdb.ann).1 =
        ⟨500, .response ⟨"Error", .message "no student found with id 7"⟩⟩ ∧
      (UpdateById memdb.store ⟨"1", .ok [("name", .string "Bob")]⟩ memdb.ann).1 =
        ⟨200, .student ⟨1, "Bob", "ann@x.com", 20⟩⟩ :=
  ⟨congrArg (fun w => w.1.status)
      ((updateById_status_mapping memdb.store ⟨"abc", .ok [("name", .string "Bob")]⟩
        memdb.ann).1 _ rfl).1,
    ((updateById_status_mapping memdb.store ⟨"1", .error .EOF⟩ memdb.ann).2.1 1 .EOF rfl rfl).1,
    congrArg Prod.fst
      ((updateById_status_mapping memdb.store ⟨"7", .ok [("name", .string "Bob")]⟩
        memdb.ann).2.2.1 7 _ _ _ rfl rfl rfl),
    congrArg Prod.fst
      ((updateById_status_mapping memdb.store ⟨"1", .ok [("name", .string "Bob")]⟩
        memdb.ann).2.2.2 1 _ _ _ rfl rfl rfl)⟩

/-- The failure answers of `GetById`, `GetList`, `DeleteById` and `UpdateById` are
of the error shape, and so are the answers of `New` with status 400. -/
theorem failure_bodies_error_shape {σ β : Type} (sto : storage.Storage σ) (st : σ) :
    (∀ r : Request β, (GetById sto r st).1.status ≠ 200 →
        ErrorShape (GetById sto r st).1.data = true) ∧
      ((GetList sto st).1.status ≠ 200 → ErrorShape (GetList sto st).1.data = true) ∧
      (∀ r : Request β, (DeleteById sto r st).1.status ≠ 200 →
        ErrorShape (DeleteById sto r st).1.data = true) ∧
      (∀ r : Request UpdateMap, (UpdateById sto r st).1.status ≠ 200 →
        ErrorShape (UpdateById sto r st).1.data = true) ∧
      (∀ Struct (r : Request Student), (New Struct sto r st).1.status = 400 →
        ErrorShape (New Struct sto r st).1.data = true) := by
  refine ⟨fun r => ?_, ?_, fun r => ?_, fun r => ?_, fun Struct r => ?_⟩
  · cases hp : strconv.ParseInt r.id with
    | error e => simp [GetById, hp, WriteJson, ErrorShape, GeneralError]
    | ok i =>
      rcases hg : sto.GetStudentById i st with ⟨_ | _, st1⟩ <;>
        simp [GetById, hp, hg, WriteJson, ErrorShape, GeneralError, StatusOK]
  · rcases hg : sto.GetStudents st with ⟨_ | _, st1⟩ <;>
      simp [GetList, hg, WriteJson, ErrorShape, GeneralError, StatusOK]
  · cases hp : strconv.ParseInt r.id with
    | error e => simp [DeleteById, hp, WriteJson, ErrorShape, GeneralError]
    | ok i =>
      rcases hg : sto.DeleteStudentById i st with ⟨_ | _, st1⟩ <;>
        simp [DeleteById, hp, hg, WriteJson, ErrorShape, GeneralError, StatusOK]
  · cases hp : strconv.ParseInt r.id with
    | error e => simp [UpdateById, hp, WriteJson, ErrorShape, GeneralError]
    | ok i =>
      cases hd : r.Decode with
      | error e =>
        by_cases he : errors.Is e .EOF = true <;>
          simp [UpdateById, hp, hd, he, WriteJson, ErrorShape, GeneralError]
      | ok updates =>
        rcases hg : sto.UpdateStudentById i updates st with ⟨_ | _, st1⟩ <;>
          simp [UpdateById, hp, hd, hg, WriteJson, ErrorShape, GeneralError, StatusOK]
  · cases hd : r.Decode with
    | error e =>
      by_cases he : errors.Is e .EOF = true <;>
        simp [New, hd, he, WriteJson, ErrorShape, GeneralError]
    | ok student =>
      cases hv : Struct student with
      | some errs => simp [New, hd, hv, WriteJson, ErrorShape, ValidationError]
      | none =>
        rcases hg : sto.CreateStudent student.Name student.Email student.Age st
          with ⟨_ | _, st1⟩ <;>
          simp [New, hd, hv, hg, WriteJson, StatusOK, StatusInternalServerError]

/-- C8: when `CreateStudent` fails, `New` passes the bare error to `WriteJson`
with status 500, a payload that neither `GeneralError` nor `ValidationError`
built and that is not of the error shape; `GetList` on the same database wraps the
error in `GeneralError`. -/
theorem new_storage_error_not_error_shape :
    (New validator.required (sqlite.Sqlite.mk memdb.offline).Storage
        ⟨"", .ok ⟨0, "Ann", "ann@x.com", 20⟩⟩ memdb.empty).1 =
        ⟨500, .error (.library "unable to open database file")⟩ ∧
      ErrorShape (.error (.library "unable to open database file")) = false ∧
      (∀ err, ErrorShape (.response (GeneralError err)) = true) ∧
      (∀ errs, ErrorShape (.response (ValidationError errs)) = true) ∧
      (GetList (sqlite.Sqlite.mk memdb.offline).Storage memdb.empty).1 =
        ⟨500, .response (GeneralError (.library "unable to open database file"))⟩ := by
  refine ⟨rfl, rfl, fun _ => rfl, fun _ => rfl, rfl⟩

/-- C9: when the body of a `POST` is empty or fails to decode, or decodes to a
Student that the validation refuses, `New` answers with status 400 and an error
body, the state is the one given, and a storage that counts its calls counts
none: `CreateStudent` is not called. -/
theorem new_rejects_invalid_body {σ : Type} (Struct : Student → Option validator.ValidationErrors)
    (sto : storage.Storage σ) (r : Request Student) (st : σ)
    (h : (∃ err, r.Decode = .error err) ∨
      (∃ student errs, r.Decode = .ok student ∧ Struct student = some errs)) :
    (New Struct sto r st).1.status = 400 ∧ ErrorShape (New Struct sto r st).1.data = true ∧
      (New Struct sto r st).2 = st ∧
      ∀ n, (New Struct sto.counted r (st, n)).2 = (st, n) := by
  rcases h with ⟨err, h⟩ | ⟨student, errs, h, hv⟩
  · simp only [New, h]
    refine ⟨?_, ?_, ?_, fun n => ?_⟩
    · split <;> rfl
    · split <;> rfl
    · split <;> rfl
    · split <;> rfl
  · have e : ∀ {τ : Type} (sto1 : storage.Storage τ) (t : τ),
        New Struct sto1 r t = (⟨400, .response (ValidationError errs)⟩, t) := by
      intro τ sto1 t
      simp [New, h, hv, WriteJson, StatusBadRequest]
    exact ⟨by rw [e], by rw [e]; rfl, by rw [e], fun n => by rw [e]⟩

/-- A Student without email is refused by `required`: the answer is 400 with the
field list and the counting storage over the empty database has counted no
call. -/
theorem new_rejects_invalid_body_witness :
    validator.required ⟨0, "Ann", "", 20⟩ = some [⟨"Email", "required"⟩] ∧
      (New validator.required memdb.store.counted ⟨"", .ok ⟨0, "Ann", "", 20⟩⟩
        (memdb.empty, 0)).1 = ⟨400, .response ⟨"Validation Error", .fields ["Email"]⟩⟩ ∧
      (New validator.required memdb.store.counted ⟨"", .ok ⟨0, "Ann", "", 20⟩⟩
        (memdb.empty, 0)).2.2 = 0 :=
  ⟨rfl, rfl, congrArg Prod.snd
    ((new_rejects_invalid_body validator.required memdb.store ⟨"", .ok ⟨0, "Ann", "", 20⟩⟩
      memdb.empty (Or.inr ⟨_, _, rfl, rfl⟩)).2.2.2 0)⟩

/-- C10: on the empty database `GetStudents` returns the nil slice and `GetList`
passes the nil slice to `WriteJson`, not an empty slice with no elements. -/
theorem getList_empty_table_is_nil_slice :
    (memdb.store.GetStudents memdb.empty).1 = .ok Slice.null ∧
      (GetList memdb.store memdb.empty).1 = ⟨200, .students Slice.null⟩ ∧
      (GetList memdb.store memdb.empty).1.data ≠ .students (Slice.elems []) := by
  refine ⟨rfl, rfl, by decide⟩

/-- C10, amended: when the statement is prepared and the query yields no rows,
`GetStudents` returns the nil slice, of length 0, with no error, and `GetList`
answers with status 200 and the nil slice as the body. -/
theorem getList_no_rows {σ : Type} (s : Sqlite σ) (st st1 st2 : σ)
    (hprepare : s.Db.Prepare "SELECT id, name, email, age FROM students" st = (.ok (), st1))
    (hquery : s.Db.Query "SELECT id, name, email, age FROM students" [] st1 = (.ok [], st2)) :
    GetStudents s st = (.ok Slice.null, st2) ∧ (Slice.null : Slice Student).len = 0 ∧
      GetList s.Storage st = (⟨200, .students Slice.null⟩, st2) := by
  have h : GetStudents s st = (.ok Slice.null, st2) := by
    simp [GetStudents, hprepare, hquery, GetStudents.loop]
  exact ⟨h, rfl, by simp [GetList, sqlite.Sqlite.Storage, h, WriteJson, StatusOK]⟩

/-- The empty database in memory prepares the select and yields no rows. -/
theorem getList_no_rows_witness :
    (memdb.db.Prepare "SELECT id, name, email, age FROM students" memdb.empty =
        (.ok (), memdb.empty) ∧
      memdb.db.Query "SELECT id, name, email, age FROM students" [] memdb.empty =
        (.ok [], memdb.empty)) ∧
      GetStudents ⟨memdb.db⟩ memdb.empty = (.ok Slice.null, memdb.empty) ∧
      (Slice.null : Slice Student).len = 0 ∧
      GetList (sqlite.Sqlite.mk memdb.db).Storage memdb.empty =
        (⟨200, .students Slice.null⟩, memdb.empty) :=
  ⟨⟨rfl, rfl⟩, getList_no_rows ⟨memdb.db⟩ memdb.empty memdb.empty memdb.empty rfl rfl⟩
